import Mathlib

/-!
Verification development for the `toml-cfg` resolution engine (`src/lib.rs`).

The proc-macro `toml_config` is embedded shallowly:
* external collaborators (the filesystem read, the TOML parser, the
  expression parser `syn::parse_str` / `Attribute::parse_args`, the
  environment variables, and `find_root_path`) are passed in as explicit
  parameters, exactly as the spec treats them ("given a raw value, parse it
  as type T or fail", "path or none");
* each panic of the macro becomes a constructor of `ResolveError`;
* every invocation of the expression parser is logged in a trace
  (a `List String` of the literals handed to it), so that "parsed exactly
  once" is an ordinary statement about the result.
-/

namespace TomlCfg

/-- A field attribute as the macro sees it: a path (e.g. `default`,
`required`) and optionally argument tokens (`#[default(32)]` carries
`some "32"`, bare `#[required]` carries `none`).  `Meta::require_path_only`
errors exactly when arguments are present. -/
structure Attr where
  path : String
  args : Option String
  deriving Repr, DecidableEq

/-- One named field of the annotated struct: identifier, type text, and its
attribute list (`field.attrs` in the source). -/
structure Field where
  ident : String
  ty : String
  attrs : List Attr
  deriving Repr, DecidableEq

/-- `struct Defn`: the flattened `field name → toml::Value` table for one
crate.  Values are kept in the already-stringified form (`t.to_string()` in
the source); the map is an association list. -/
structure Defn where
  vals : List (String × String)
  deriving Repr, DecidableEq

/-- `struct Config`: the whole parsed `cfg.toml`, `crate name → Defn`. -/
structure Config where
  crates : List (String × Defn)
  deriving Repr, DecidableEq

/-- The panics of the macro, one constructor each:
* `requiredArgs`   — "Field `f`: unexpected arguments to `#[required]`: e"
* `parseOverride`  — "Field `f`: failed to parse `t` as a valid token!"
* `defaultParse`   — "Field `f`: failed to parse default value: e"
* `missingRequired`— "Field `f`: required but no value was provided …"
* `policyConflict` — "Field `f`: expected exactly one of `#[required]` or
  `#[default(...)]` to be provided."
* `documentRequired` — "TOML_CFG=require_cfg_present set, but valid config
  not found!" -/
inductive ResolveError where
  | requiredArgs (field : String) (err : String)
  | parseOverride (field : String) (lit : String)
  | defaultParse (field : String) (lit : String)
  | missingRequired (field : String)
  | policyConflict (field : String)
  | documentRequired
  deriving Repr, DecidableEq

/-- The emitted token stream, abstracted: the generated struct (name and
fields with their types), the constant (SHOUTY_SNEK name and per-field
values), and the `toml_cfg_hack` module's `include_bytes!` path when one is
emitted. -/
structure Artifact where
  structName : String
  constName : String
  structFields : List (String × String)
  instFields : List (String × String)
  hackRetrigger : Option String
  deriving Repr, DecidableEq

/-- `field.attrs.iter().find(|a| a.path().is_ident("default"))` -/
def defaultAttribute (f : Field) : Option Attr :=
  f.attrs.find? (fun a => a.path == "default")

/-- `field.attrs.iter().find(|a| a.path().is_ident("required"))` -/
def requiredAttribute (f : Field) : Option Attr :=
  f.attrs.find? (fun a => a.path == "required")

/-- Does list `l` start with `p`? (model of `str` prefix matching) -/
def charsStartWith : List Char → List Char → Bool
  | [], _ => true
  | _ :: _, [] => false
  | p :: ps, c :: cs => p == c && charsStartWith ps cs

/-- Does `l` contain `pat` as a contiguous sublist? -/
def charsContain (pat : List Char) : List Char → Bool
  | [] => charsStartWith pat []
  | c :: cs => charsStartWith pat (c :: cs) || charsContain pat cs

/-- Model of Rust `str::contains` for substring patterns. -/
def containsSub (s pat : String) : Bool :=
  charsContain pat.toList s.toList

/-- `env::var("TOML_CFG").is_ok_and(|v| v.contains("require_cfg_present"))`;
the environment variable is passed in as `Option String`. -/
def requireCfgPresent (tomlCfgVar : Option String) : Bool :=
  match tomlCfgVar with
  | some v => containsSub v "require_cfg_present"
  | none => false

/-- ASCII lowercase letter test (heck works wordwise over ASCII here). -/
def isLowAscii (c : Char) : Bool := 97 ≤ c.toNat && c.toNat ≤ 122

/-- ASCII uppercase letter test. -/
def isUpAscii (c : Char) : Bool := 65 ≤ c.toNat && c.toNat ≤ 90

/-- Uppercase one character (ASCII). -/
def upChar (c : Char) : Char :=
  if isLowAscii c then Char.ofNat (c.toNat - 32) else c

/-- Word-boundary-aware uppercasing: a lower→upper transition inserts `_`.
`prev` is the previously consumed character. -/
def shoutyChars : List Char → Option Char → List Char
  | [], _ => []
  | c :: cs, prev =>
    let sep := match prev with
      | some p => isLowAscii p && isUpAscii c
      | none => false
    (if sep then ['_', upChar c] else [upChar c]) ++ shoutyChars cs (some c)

/-- Model of heck's `TO_SHOUTY_SNEK_CASE` applied to the struct identifier:
uppercase, `_`-separated at word boundaries, e.g. `MyConfig ↦ MY_CONFIG`. -/
def toShoutySnek (s : String) : String :=
  String.mk (shoutyChars s.toList none)

/-- `fn load_crate_cfg`: `contents` is the result of
`std::fs::read_to_string(path)`, `parseToml` the external TOML parser,
`pkgName` the `CARGO_PKG_NAME` environment variable.  Any failure yields
`none` (`.ok()?` at every step). -/
def load_crate_cfg (contents : Option String) (parseToml : String → Option Config)
    (pkgName : Option String) : Option Defn := do
  let c ← contents
  let parsed ← parseToml c
  let name ← pkgName
  List.lookup name parsed.crates

/-- `find_root_path().map(|c| c.join("cfg.toml"))`; `rootPath` stands for the
result of `find_root_path()` (an external path heuristic). -/
def cfgPath (rootPath : Option String) : Option String :=
  rootPath.map (fun c => c ++ "/cfg.toml")

/-- `cfg_path.as_ref().and_then(|c| load_crate_cfg(c))` with the file read
made explicit. -/
def maybeCfg (parseToml : String → Option Config) (rootPath : Option String)
    (readFile : String → Option String) (pkgName : Option String) : Option Defn :=
  (cfgPath rootPath).bind (fun c => load_crate_cfg (readFile c) parseToml pkgName)

/-- The body of the per-field loop.  `p` is the external expression parser
(used for `syn::parse_str::<Expr>` on overrides and
`Attribute::parse_args::<Expr>` on defaults).  Returns the resolved value
or the panic, paired with the trace of literals handed to `p`. -/
def resolveField (p : String → Option String) (cfg : Defn) (f : Field) :
    Except ResolveError String × List String :=
  match (requiredAttribute f).bind (fun a => a.args) with
  | some e => (.error (.requiredArgs f.ident e), [])
  | none =>
    match List.lookup f.ident cfg.vals with
    | some t =>
      match p t with
      | some v => (.ok v, [t])
      | none => (.error (.parseOverride f.ident t), [t])
    | none =>
      match defaultAttribute f, requiredAttribute f with
      | some d, none =>
        match d.args with
        | some lit =>
          match p lit with
          | some v => (.ok v, [lit])
          | none => (.error (.defaultParse f.ident lit), [lit])
        | none => (.error (.defaultParse f.ident "expected attribute arguments in parentheses"), [])
      | none, some _ => (.error (.missingRequired f.ident), [])
      | _, _ => (.error (.policyConflict f.ident), [])

/-- The `for field in struct_defn.fields` loop: fields in declaration order,
first panic aborts the pass, successful values are collected in order. -/
def resolveFields (p : String → Option String) (cfg : Defn) :
    List Field → Except ResolveError (List (String × String)) × List String
  | [] => (.ok [], [])
  | f :: fs =>
    match resolveField p cfg f with
    | (.ok v, tr) =>
      match resolveFields p cfg fs with
      | (.ok vs, tr') => (.ok ((f.ident, v) :: vs), tr ++ tr')
      | (.error e, tr') => (.error e, tr ++ tr')
    | (.error e, tr) => (.error e, tr)

/-- The final `quote!` block: packages the resolved values, the SHOUTY_SNEK
constant name, and the `include_bytes!` retrigger (present exactly when
`cfg_path` was `Some`). -/
def emitResult (structIdent : String) (cfg_path : Option String) (fields : List Field) :
    Except ResolveError (List (String × String)) × List String →
    Except ResolveError Artifact × List String
  | (.error e, tr) => (.error e, tr)
  | (.ok vs, tr) =>
    (.ok { structName := structIdent,
           constName := toShoutySnek structIdent,
           structFields := fields.map (fun f => (f.ident, f.ty)),
           instFields := vs,
           hackRetrigger := cfg_path }, tr)

/-- `pub fn toml_config`, with the struct already destructured into its
identifier and fields and all external collaborators explicit. -/
def toml_config (p : String → Option String) (parseToml : String → Option Config)
    (tomlCfgVar : Option String) (rootPath : Option String)
    (readFile : String → Option String) (pkgName : Option String)
    (structIdent : String) (fields : List Field) :
    Except ResolveError Artifact × List String :=
  let require_cfg_present := requireCfgPresent tomlCfgVar
  let cfg_path := cfgPath rootPath
  let maybe_cfg := maybeCfg parseToml rootPath readFile pkgName
  if require_cfg_present && maybe_cfg.isNone then
    (.error .documentRequired, [])
  else
    let cfg := maybe_cfg.getD { vals := [] }
    emitResult structIdent cfg_path fields (resolveFields p cfg fields)

/-- A field that declares both policies or neither (the spec's
"structurally invalid" field). -/
def misdeclared (f : Field) : Bool :=
  ((defaultAttribute f).isSome && (requiredAttribute f).isSome) ||
  ((defaultAttribute f).isNone && (requiredAttribute f).isNone)

/-! ## Concrete fixtures used by counterexamples and witnesses -/

/-- A sample expression parser accepting every literal unchanged. -/
def pId : String → Option String := fun s => some s

/-- A field declaring only `#[default(1)]`. -/
def fldDef : Field := ⟨"x", "usize", [⟨"default", some "1"⟩]⟩

/-- A field declaring BOTH `#[default(1)]` and `#[required]`. -/
def fldBoth : Field := ⟨"x", "usize", [⟨"default", some "1"⟩, ⟨"required", none⟩]⟩

/-- A field declaring only `#[required]`. -/
def fldReq : Field := ⟨"wifi_ssid", "str", [⟨"required", none⟩]⟩

/-- A field declaring `#[required(0)]`, i.e. `required` with arguments. -/
def fldReqArgs : Field := ⟨"x", "usize", [⟨"required", some "0"⟩]⟩

/-- An override table supplying `x = 2`. -/
def docX : Defn := ⟨[("x", "2")]⟩

/-- An override table supplying `wifi_ssid = "net"`. -/
def docSsid : Defn := ⟨[("wifi_ssid", "\"net\"")]⟩

/-- A TOML-parser fixture: the file text "filetext" parses to a document
whose `my-pkg` table is `docX`; everything else fails to parse. -/
def ptX : String → Option Config :=
  fun s => if s = "filetext" then some ⟨[("my-pkg", docX)]⟩ else none

/-- A filesystem fixture: only `proj/cfg.toml` exists, holding "filetext". -/
def rfX : String → Option String :=
  fun path => if path = "proj/cfg.toml" then some "filetext" else none

/-! ## Helper lemmas -/

/-- If a prefix of the field list resolves and the rest fails, the whole
list fails with the same error (the loop aborts at the first panic). -/
theorem resolveFields_append_error (p : String → Option String) (cfg : Defn)
    (pre fs : List Field) (vs : List (String × String)) (tr : List String)
    (e : ResolveError)
    (hpre : resolveFields p cfg pre = (.ok vs, tr))
    (hfs : (resolveFields p cfg fs).1 = .error e) :
    ∃ tr2, resolveFields p cfg (pre ++ fs) = (.error e, tr2) := by
  induction pre generalizing vs tr with
  | nil =>
    rcases h2 : resolveFields p cfg fs with ⟨r, tr2⟩
    rw [h2] at hfs
    simp at hfs
    exact ⟨tr2, by simpa [hfs] using h2⟩
  | cons f pre ih =>
    rcases hf : resolveField p cfg f with ⟨r, tr0⟩
    rcases hrest : resolveFields p cfg pre with ⟨r1, tr1⟩
    unfold resolveFields at hpre
    rw [hf, hrest] at hpre
    cases r with
    | error e' => simp at hpre
    | ok v =>
      cases r1 with
      | error e' => simp at hpre
      | ok vs1 =>
        obtain ⟨tr2, h2⟩ := ih vs1 tr1 hrest
        refine ⟨tr0 ++ tr2, ?_⟩
        simp only [List.cons_append, resolveFields, hf, List.append_eq, h2]

/-- Prefix resolves, then a field whose own resolution fails: the whole
pass fails with that field's error. -/
theorem resolveFields_first_error (p : String → Option String) (cfg : Defn)
    (pre post : List Field) (f : Field) (vs : List (String × String))
    (tr tr0 : List String) (e : ResolveError)
    (hpre : resolveFields p cfg pre = (.ok vs, tr))
    (hf : resolveField p cfg f = (.error e, tr0)) :
    ∃ tr2, resolveFields p cfg (pre ++ f :: post) = (.error e, tr2) := by
  apply resolveFields_append_error p cfg pre (f :: post) vs tr e hpre
  simp [resolveFields, hf]

/-- With an empty override table, a list of well-formed `Default` fields
resolves to the parsed defaults, and the parse trace is exactly one event
per field, carrying that field's default literal. -/
theorem resolveFields_defaults (p : String → Option String) (fs : List Field)
    (h : ∀ f ∈ fs, requiredAttribute f = none ∧
         ∃ d v, defaultAttribute f = some ⟨"default", some d⟩ ∧ p d = some v) :
    resolveFields p ⟨[]⟩ fs =
      (.ok (fs.map (fun f =>
          (f.ident, ((defaultAttribute f).bind (fun a => a.args.bind p)).getD ""))),
       fs.map (fun f => ((defaultAttribute f).bind (fun a => a.args)).getD "")) := by
  induction fs with
  | nil => rfl
  | cons f fs ih =>
    obtain ⟨hreq, d, v, hdef, hp⟩ := h f (List.mem_cons_self f fs)
    have hrest := ih (fun g hg => h g (List.mem_cons_of_mem f hg))
    simp only [resolveFields, resolveField, hreq, hdef, hp, hrest, Option.bind,
      List.lookup, List.map, Option.getD, Option.bind_eq_bind, Option.some_bind,
      List.singleton_append]

/-- Shape of every successful emission: the artifact's names, struct fields
and retrigger are the deterministic functions of the inputs that the final
`quote!` block computes. -/
theorem toml_config_ok_shape (p : String → Option String) (parseToml : String → Option Config)
    (tomlCfgVar rootPath pkgName : Option String) (readFile : String → Option String)
    (structIdent : String) (fields : List Field) (a : Artifact) (tr : List String)
    (h : toml_config p parseToml tomlCfgVar rootPath readFile pkgName structIdent fields
          = (.ok a, tr)) :
    a.structName = structIdent ∧ a.constName = toShoutySnek structIdent ∧
    a.structFields = fields.map (fun f => (f.ident, f.ty)) ∧
    a.hackRetrigger = cfgPath rootPath := by
  unfold toml_config at h
  by_cases hg : (requireCfgPresent tomlCfgVar &&
      (maybeCfg parseToml rootPath readFile pkgName).isNone) = true
  · rw [if_pos hg] at h
    simp at h
  · rw [if_neg hg] at h
    dsimp only [] at h
    rcases hr : resolveFields p
        ((maybeCfg parseToml rootPath readFile pkgName).getD ⟨[]⟩) fields with ⟨r, tr'⟩
    rw [hr] at h
    cases r with
    | error e => simp [emitResult] at h
    | ok vs =>
      simp only [emitResult, Prod.mk.injEq, Except.ok.injEq] at h
      obtain ⟨ha, -⟩ := h
      subst ha
      exact ⟨rfl, rfl, rfl, rfl⟩

/-! ## Claims -/

/-- Claim C1, counterexample: `fldBoth` declares BOTH `#[required]` and
`#[default(1)]`, yet with an override document supplying `x = 2` the whole
resolution succeeds — no `PolicyConflictError` is raised for it, so the
policy-validity check neither runs up front nor is independent of the
override document's contents. -/
theorem claim_C1_counterexample :
    misdeclared fldBoth = true ∧
    toml_config pId ptX none (some "proj") rfX (some "my-pkg") "Config" [fldBoth]
      = (.ok ⟨"Config", "CONFIG", [("x", "usize")], [("x", "2")],
             some "proj/cfg.toml"⟩, ["2"]) :=
  ⟨rfl, rfl⟩

/-- Claim C1, amended: a field declaring both `Required` and `Default`
policies, or neither (with any `required` attribute argument-free), makes
resolution fail with `PolicyConflictError` naming that field only when the
override document supplies no value for that field; the check runs per
field during the single resolution pass, in declaration order, so it is the
first such field reached after all earlier fields resolve that is
reported — not an up-front schema scan. -/
theorem claim_C1_amended (p : String → Option String) (parseToml : String → Option Config)
    (tomlCfgVar rootPath pkgName : Option String) (readFile : String → Option String)
    (structIdent : String) (pre post : List Field) (f : Field)
    (vs : List (String × String)) (tr : List String)
    (hconf : misdeclared f = true)
    (hargs : (requiredAttribute f).bind (fun a => a.args) = none)
    (hmiss : List.lookup f.ident
      ((maybeCfg parseToml rootPath readFile pkgName).getD ⟨[]⟩).vals = none)
    (hgate : requireCfgPresent tomlCfgVar = false ∨
      (maybeCfg parseToml rootPath readFile pkgName).isSome = true)
    (hpre : resolveFields p ((maybeCfg parseToml rootPath readFile pkgName).getD ⟨[]⟩) pre
      = (.ok vs, tr)) :
    (toml_config p parseToml tomlCfgVar rootPath readFile pkgName structIdent
        (pre ++ f :: post)).1
      = .error (.policyConflict f.ident) := by
  have hfield : resolveField p ((maybeCfg parseToml rootPath readFile pkgName).getD ⟨[]⟩) f
      = (.error (.policyConflict f.ident), []) := by
    rcases hd : defaultAttribute f with - | d <;>
      rcases hr : requiredAttribute f with - | r <;>
      simp only [misdeclared, hd, hr, Option.isSome_none, Option.isSome_some,
        Option.isNone_none, Option.isNone_some, Bool.false_and, Bool.and_false,
        Bool.true_and, Bool.and_true, Bool.or_false, Bool.false_or, Bool.or_self,
        Bool.false_eq_true] at hconf
    · simp only [resolveField, hr, Option.none_bind, hmiss, hd]
    · rw [hr] at hargs
      simp only [Option.some_bind] at hargs
      simp only [resolveField, hr, Option.some_bind, hargs, hmiss, hd]
  obtain ⟨tr2, h2⟩ := resolveFields_first_error p _ pre post f vs tr _ _ hpre hfield
  have hgate' : (requireCfgPresent tomlCfgVar &&
      (maybeCfg parseToml rootPath readFile pkgName).isNone) = false := by
    rcases hgate with hg | hg
    · simp [hg]
    · obtain ⟨d, hd⟩ := Option.isSome_iff_exists.mp hg
      simp [hd]
  simp [toml_config, hgate', h2, emitResult]

/-- Closed witness for the amended C1: a well-formed default field followed
by a conflicted field with no override entry fails with the conflict error
for the second field. -/
theorem claim_C1_amended_witness :
    (toml_config pId ptX none none rfX (some "my-pkg") "Config"
        ([fldDef] ++ fldBoth :: [])).1
      = .error (.policyConflict "x") :=
  claim_C1_amended pId ptX none none (some "my-pkg") rfX "Config"
    [fldDef] [] fldBoth [("x", "1")] ["1"] rfl rfl rfl (Or.inl rfl) rfl

/-- Claim C2: when the override document is present (`maybeCfg` is `some`),
the strict-mode flag is irrelevant — resolution and emission under any two
values of the `TOML_CFG` variable coincide. -/
theorem claim_C2 (p : String → Option String) (parseToml : String → Option Config)
    (v₁ v₂ rootPath pkgName : Option String) (readFile : String → Option String)
    (structIdent : String) (fields : List Field)
    (hdoc : (maybeCfg parseToml rootPath readFile pkgName).isSome = true) :
    toml_config p parseToml v₁ rootPath readFile pkgName structIdent fields
      = toml_config p parseToml v₂ rootPath readFile pkgName structIdent fields := by
  obtain ⟨d, hd⟩ := Option.isSome_iff_exists.mp hdoc
  simp [toml_config, hd]

/-- Closed witness for C2: with the fixture document present, setting the
strict-mode variable or leaving it unset gives the same output. -/
theorem claim_C2_witness :
    toml_config pId ptX (some "require_cfg_present") (some "proj") rfX (some "my-pkg")
        "Config" [fldDef]
      = toml_config pId ptX none (some "proj") rfX (some "my-pkg") "Config" [fldDef] :=
  claim_C2 pId ptX (some "require_cfg_present") none (some "proj") (some "my-pkg") rfX
    "Config" [fldDef] rfl

/-- Claim C3, counterexample: with a derivable root path but a filesystem on
which the read fails, no override document is found (`maybeCfg = none`), yet
the emitted artifact still carries the `include_bytes!` dependency edge on
`proj/cfg.toml` — contradicting "if no Override Document was found, the
artifact contains no such dependency". -/
theorem claim_C3_counterexample :
    maybeCfg ptX (some "proj") (fun _ => none) (some "my-pkg") = none ∧
    toml_config pId ptX none (some "proj") (fun _ => none) (some "my-pkg") "Config" [fldDef]
      = (.ok ⟨"Config", "CONFIG", [("x", "usize")], [("x", "1")],
             some "proj/cfg.toml"⟩, ["1"]) :=
  ⟨rfl, rfl⟩

/-- Claim C3, amended: the Emitter attaches the invalidation dependency
exactly when the Override Document's path was derived (the root-path search
succeeded) — on every successful emission the artifact's retrigger equals
`cfgPath rootPath`, regardless of whether a document was actually loaded
from that path. -/
theorem claim_C3_amended (p : String → Option String) (parseToml : String → Option Config)
    (tomlCfgVar rootPath pkgName : Option String) (readFile : String → Option String)
    (structIdent : String) (fields : List Field) (a : Artifact) (tr : List String)
    (h : toml_config p parseToml tomlCfgVar rootPath readFile pkgName structIdent fields
          = (.ok a, tr)) :
    a.hackRetrigger = cfgPath rootPath :=
  (toml_config_ok_shape p parseToml tomlCfgVar rootPath pkgName readFile
    structIdent fields a tr h).2.2.2

/-- Closed witness for the amended C3: the fixture's successful run emits
the retrigger path `proj/cfg.toml` = `cfgPath (some "proj")`. -/
theorem claim_C3_amended_witness :
    (Artifact.mk "Config" "CONFIG" [("x", "usize")] [("x", "2")]
        (some "proj/cfg.toml")).hackRetrigger
      = cfgPath (some "proj") :=
  claim_C3_amended pId ptX none (some "proj") (some "my-pkg") rfX "Config" [fldDef]
    ⟨"Config", "CONFIG", [("x", "usize")], [("x", "2")], some "proj/cfg.toml"⟩ ["2"] rfl

/-- Claim C4: for a field declared `Default(X)` (any `X`), when the override
table carries `Y` for the field and `Y` parses to `yv`, the field resolves
to `yv`, and the only literal handed to the parser is `Y` — the default
literal is never consulted, so the result cannot be `X`'s parse. -/
theorem claim_C4 (p : String → Option String) (cfg : Defn) (f : Field)
    (X : Option String) (Y yv : String)
    (hdef : defaultAttribute f = some ⟨"default", X⟩)
    (hargs : (requiredAttribute f).bind (fun a => a.args) = none)
    (hover : List.lookup f.ident cfg.vals = some Y)
    (hp : p Y = some yv) :
    resolveField p cfg f = (.ok yv, [Y]) := by
  simp only [resolveField, hargs, hover, hp]

/-- Closed witness for C4: default `1`, override `2` — the resolved value is
the parsed override `2`. -/
theorem claim_C4_witness :
    resolveField pId docX fldDef = (.ok "2", ["2"]) :=
  claim_C4 pId docX fldDef (some "1") "2" "2" rfl rfl rfl rfl

/-- Claim C5: for a field declared `Required` and only `Required`: with no
matching override entry, its resolution fails with `MissingRequiredError`
naming the field (and so does the whole pass once it reaches the field);
with a matching entry that parses, it resolves to the parsed override
value. -/
theorem claim_C5 (p : String → Option String) (cfg : Defn) (f : Field)
    (hreq : requiredAttribute f = some ⟨"required", none⟩)
    (hdef : defaultAttribute f = none) :
    (List.lookup f.ident cfg.vals = none →
       resolveField p cfg f = (.error (.missingRequired f.ident), [])
       ∧ ∀ pre post vs tr, resolveFields p cfg pre = (.ok vs, tr) →
           (resolveFields p cfg (pre ++ f :: post)).1
             = .error (.missingRequired f.ident))
    ∧ ∀ t tv, List.lookup f.ident cfg.vals = some t → p t = some tv →
        resolveField p cfg f = (.ok tv, [t]) := by
  constructor
  · intro hmiss
    have hfield : resolveField p cfg f = (.error (.missingRequired f.ident), []) := by
      simp only [resolveField, hreq, Option.some_bind, hmiss, hdef]
    refine ⟨hfield, ?_⟩
    intro pre post vs tr hpre
    obtain ⟨tr2, h2⟩ := resolveFields_first_error p cfg pre post f vs tr _ _ hpre hfield
    simp [h2]
  · intro t tv hover hp
    simp only [resolveField, hreq, Option.some_bind, hover, hp]

/-- Closed witness for C5: `wifi_ssid` required-only — missing entry fails
with the named error; a present entry resolves to the parsed value. -/
theorem claim_C5_witness :
    resolveField pId ⟨[]⟩ fldReq = (.error (.missingRequired "wifi_ssid"), [])
    ∧ resolveField pId docSsid fldReq = (.ok "\"net\"", ["\"net\""]) :=
  ⟨((claim_C5 pId ⟨[]⟩ fldReq rfl rfl).1 rfl).1,
   (claim_C5 pId docSsid fldReq rfl rfl).2 "\"net\"" "\"net\"" rfl rfl⟩

/-- Claim C6: strict mode is on exactly when the `TOML_CFG` variable is set
and contains the substring `require_cfg_present`; on and no document found,
resolution fails with the document-required error; off, the same situation
succeeds for any schema of well-formed `Default` fields. -/
theorem claim_C6 (p : String → Option String) (parseToml : String → Option Config)
    (tomlCfgVar rootPath pkgName : Option String) (readFile : String → Option String)
    (structIdent : String) (fields : List Field) :
    (requireCfgPresent tomlCfgVar = true ↔
       ∃ s, tomlCfgVar = some s ∧ containsSub s "require_cfg_present" = true)
    ∧ (requireCfgPresent tomlCfgVar = true →
         maybeCfg parseToml rootPath readFile pkgName = none →
         toml_config p parseToml tomlCfgVar rootPath readFile pkgName structIdent fields
           = (.error .documentRequired, []))
    ∧ (requireCfgPresent tomlCfgVar = false →
         maybeCfg parseToml rootPath readFile pkgName = none →
         (∀ f ∈ fields, requiredAttribute f = none ∧
            ∃ d v, defaultAttribute f = some ⟨"default", some d⟩ ∧ p d = some v) →
         ∃ a tr, toml_config p parseToml tomlCfgVar rootPath readFile pkgName structIdent
           fields = (.ok a, tr)) := by
  refine ⟨?_, ?_, ?_⟩
  · cases tomlCfgVar with
    | none => simp [requireCfgPresent]
    | some s => simp [requireCfgPresent]
  · intro h1 h2
    simp [toml_config, h1, h2]
  · intro h1 h2 hall
    exact ⟨⟨structIdent, toShoutySnek structIdent,
        fields.map (fun f => (f.ident, f.ty)),
        fields.map (fun f =>
          (f.ident, ((defaultAttribute f).bind (fun a => a.args.bind p)).getD "")),
        cfgPath rootPath⟩,
      fields.map (fun f => ((defaultAttribute f).bind (fun a => a.args)).getD ""),
      by simp [toml_config, h1, h2, resolveFields_defaults p fields hall, emitResult]⟩

/-- Closed witness for C6: strict on with no document errors; strict off
with the same missing document succeeds. -/
theorem claim_C6_witness :
    toml_config pId ptX (some "require_cfg_present") none rfX (some "my-pkg")
        "Config" [fldDef]
      = (.error .documentRequired, [])
    ∧ ∃ a tr, toml_config pId ptX none none rfX (some "my-pkg") "Config" [fldDef]
        = (.ok a, tr) :=
  ⟨(claim_C6 pId ptX (some "require_cfg_present") none (some "my-pkg") rfX
      "Config" [fldDef]).2.1 rfl rfl,
   (claim_C6 pId ptX none none (some "my-pkg") rfX "Config" [fldDef]).2.2 rfl rfl
     (by
       intro f hf
       simp only [List.mem_singleton] at hf
       subst hf
       exact ⟨rfl, "1", "1", rfl, rfl⟩)⟩

/-- Claim C7: an all-`Default` schema resolved with no override document
succeeds; every field's value is its default literal's parse, and the parse
trace is exactly one event per field, in declaration order, carrying that
field's default literal — each default is parsed exactly once. -/
theorem claim_C7 (p : String → Option String) (parseToml : String → Option Config)
    (tomlCfgVar rootPath pkgName : Option String) (readFile : String → Option String)
    (structIdent : String) (fields : List Field)
    (hstrict : requireCfgPresent tomlCfgVar = false)
    (hnodoc : maybeCfg parseToml rootPath readFile pkgName = none)
    (hall : ∀ f ∈ fields, requiredAttribute f = none ∧
       ∃ d v, defaultAttribute f = some ⟨"default", some d⟩ ∧ p d = some v) :
    toml_config p parseToml tomlCfgVar rootPath readFile pkgName structIdent fields
      = (.ok ⟨structIdent, toShoutySnek structIdent,
             fields.map (fun f => (f.ident, f.ty)),
             fields.map (fun f =>
               (f.ident, ((defaultAttribute f).bind (fun a => a.args.bind p)).getD "")),
             cfgPath rootPath⟩,
         fields.map (fun f => ((defaultAttribute f).bind (fun a => a.args)).getD "")) := by
  simp [toml_config, hstrict, hnodoc, resolveFields_defaults p fields hall, emitResult]

/-- Closed witness for C7: one default field, no document: the value is
the parsed default `1`, parsed once. -/
theorem claim_C7_witness :
    toml_config pId ptX none none rfX (some "my-pkg") "Config" [fldDef]
      = (.ok ⟨"Config", "CONFIG", [("x", "usize")], [("x", "1")], none⟩, ["1"]) :=
  claim_C7 pId ptX none none (some "my-pkg") rfX "Config" [fldDef] rfl rfl
    (by
      intro f hf
      simp only [List.mem_singleton] at hf
      subst hf
      exact ⟨rfl, "1", "1", rfl, rfl⟩)

/-- Claim C8: resolution and emission are deterministic — the embedding is a
pure function, two runs on the same (schema, identity, document) inputs are
identical, and every successful run's canonical constant name is the fixed
case transform of the component name. -/
theorem claim_C8 (p : String → Option String) (parseToml : String → Option Config)
    (tomlCfgVar rootPath pkgName : Option String) (readFile : String → Option String)
    (structIdent : String) (fields : List Field) :
    toml_config p parseToml tomlCfgVar rootPath readFile pkgName structIdent fields
      = toml_config p parseToml tomlCfgVar rootPath readFile pkgName structIdent fields
    ∧ toShoutySnek structIdent = toShoutySnek structIdent
    ∧ ∀ a tr, toml_config p parseToml tomlCfgVar rootPath readFile pkgName structIdent
          fields = (.ok a, tr) →
        a.constName = toShoutySnek structIdent :=
  ⟨rfl, rfl, fun a tr h =>
    (toml_config_ok_shape p parseToml tomlCfgVar rootPath pkgName readFile structIdent
      fields a tr h).2.1⟩

/-- Closed witness for C8: the fixture run's constant name is the case
transform of `Config`, and the transform maps `MyConfig` to `MY_CONFIG`. -/
theorem claim_C8_witness :
    (Artifact.mk "Config" "CONFIG" [("x", "usize")] [("x", "2")]
        (some "proj/cfg.toml")).constName = toShoutySnek "Config"
    ∧ toShoutySnek "MyConfig" = "MY_CONFIG" :=
  ⟨(claim_C8 pId ptX none (some "proj") (some "my-pkg") rfX "Config" [fldDef]).2.2
      ⟨"Config", "CONFIG", [("x", "usize")], [("x", "2")], some "proj/cfg.toml"⟩
      ["2"] rfl,
   rfl⟩

/-- Claim C9 (implicit): a field whose `#[required]` attribute carries
arguments resolves to the error naming the field and the arguments, with an
empty parse trace; the outcome is independent of the override table (the
check precedes the lookup), and the whole pass fails there once reached,
even when the document supplies a value for the field. -/
theorem claim_C9 (p : String → Option String) (cfg : Defn) (f : Field) (args : String)
    (hreq : requiredAttribute f = some ⟨"required", some args⟩) :
    resolveField p cfg f = (.error (.requiredArgs f.ident args), [])
    ∧ (∀ cfg', resolveField p cfg f = resolveField p cfg' f)
    ∧ ∀ pre post vs tr, resolveFields p cfg pre = (.ok vs, tr) →
        (resolveFields p cfg (pre ++ f :: post)).1
          = .error (.requiredArgs f.ident args) := by
  have hfield : ∀ c : Defn, resolveField p c f
      = (.error (.requiredArgs f.ident args), []) := by
    intro c
    simp only [resolveField, hreq, Option.some_bind]
  refine ⟨hfield cfg, fun cfg' => (hfield cfg).trans (hfield cfg').symm, ?_⟩
  intro pre post vs tr hpre
  obtain ⟨tr2, h2⟩ := resolveFields_first_error p cfg pre post f vs tr _ _ hpre (hfield cfg)
  simp [h2]

/-- Closed witness for C9: `#[required(0)]` on `x` fails with the
arguments error even though the override table carries `x = 2`, and the
result equals the one with an empty table. -/
theorem claim_C9_witness :
    resolveField pId docX fldReqArgs = (.error (.requiredArgs "x" "0"), [])
    ∧ resolveField pId docX fldReqArgs = resolveField pId ⟨[]⟩ fldReqArgs :=
  ⟨(claim_C9 pId docX fldReqArgs "0" rfl).1,
   (claim_C9 pId docX fldReqArgs "0" rfl).2.1 ⟨[]⟩⟩

/-- Claim C10 (implicit): an unparsable document, or one with no table for
the current package, makes `load_crate_cfg` return `none` exactly like a
missing file; with the document absent in this sense, strict mode fails
with the document-required error, and non-strict resolution proceeds with
an empty override table (all fields fall through to Default/Required
handling). -/
theorem claim_C10 (p : String → Option String) (parseToml : String → Option Config)
    (tomlCfgVar pkgName : Option String) (rp : String) (readFile : String → Option String)
    (structIdent : String) (fields : List Field)
    (hload : load_crate_cfg (readFile (rp ++ "/cfg.toml")) parseToml pkgName = none) :
    (∀ c name, parseToml c = none → load_crate_cfg (some c) parseToml name = none)
    ∧ (∀ c cf name, parseToml c = some cf → List.lookup name cf.crates = none →
        load_crate_cfg (some c) parseToml (some name) = none)
    ∧ (requireCfgPresent tomlCfgVar = true →
        toml_config p parseToml tomlCfgVar (some rp) readFile pkgName structIdent fields
          = (.error .documentRequired, []))
    ∧ (requireCfgPresent tomlCfgVar = false →
        toml_config p parseToml tomlCfgVar (some rp) readFile pkgName structIdent fields
          = emitResult structIdent (some (rp ++ "/cfg.toml")) fields
              (resolveFields p ⟨[]⟩ fields)) := by
  have hmc : maybeCfg parseToml (some rp) readFile pkgName = none := by
    simp [maybeCfg, cfgPath, hload]
  refine ⟨?_, ?_, ?_, ?_⟩
  · intro c name hparse
    simp [load_crate_cfg, hparse]
  · intro c cf name hparse hlook
    simp [load_crate_cfg, hparse, hlook]
  · intro hstrict
    simp [toml_config, hstrict, hmc]
  · intro hstrict
    simp [toml_config, hstrict, hmc, cfgPath]

/-- Closed witness for C10: with a root path but an unreadable file, strict
mode errors and non-strict mode resolves against the empty table. -/
theorem claim_C10_witness :
    toml_config pId ptX (some "require_cfg_present") (some "proj") (fun _ => none)
        (some "my-pkg") "Config" [fldReq]
      = (.error .documentRequired, [])
    ∧ toml_config pId ptX none (some "proj") (fun _ => none) (some "my-pkg")
        "Config" [fldReq]
      = emitResult "Config" (some ("proj" ++ "/cfg.toml")) [fldReq]
          (resolveFields pId ⟨[]⟩ [fldReq]) :=
  ⟨(claim_C10 pId ptX (some "require_cfg_present") (some "my-pkg") "proj"
      (fun _ => none) "Config" [fldReq] rfl).2.2.1 rfl,
   (claim_C10 pId ptX none (some "my-pkg") "proj" (fun _ => none) "Config" [fldReq]
      rfl).2.2.2 rfl⟩

end TomlCfg
